import Mathlib

/-!
Shallow embedding of `src/bookstore_manager.py`, a SQLite-backed bookstore
point-of-sale ledger.  The three tables (`member`, `book`, `sale`) are
modelled as lists of rows; each Store operation is a pure function from a
database state to a new database state plus its returned flag/message.
SQL `SELECT ... WHERE key = ?` with `fetchone()` becomes `List.find?`,
`UPDATE ... WHERE` becomes `List.map` with a conditional rewrite, and
`DELETE ... WHERE` becomes `List.filter`.  An engine-level failure during
the write phase of `add_sale` (caught by its `except sqlite3.Error`
handler) is modelled by an explicit error oracle parameter.
-/

namespace Bookstore

/-- A row of the `member` table: `member(mid, mname, mphone, memail)`. -/
structure Member where
  mid : String
  mname : String
  mphone : String
  memail : Option String
deriving DecidableEq, Repr

/-- A row of the `book` table: `book(bid, btitle, bprice, bstock)`. -/
structure Book where
  bid : String
  btitle : String
  bprice : Int
  bstock : Int
deriving DecidableEq, Repr

/-- A row of the `sale` table:
`sale(sid, sdate, mid, bid, sqty, sdiscount, stotal)`;
`sid` is the autoincrementing integer primary key. -/
structure Sale where
  sid : Nat
  sdate : String
  mid : String
  bid : String
  sqty : Int
  sdiscount : Int
  stotal : Int
deriving DecidableEq, Repr

/-- The database state: the three tables plus the next `AUTOINCREMENT`
value for `sale.sid`. -/
structure DB where
  members : List Member
  books : List Book
  sales : List Sale
  nextSid : Nat
deriving DecidableEq, Repr

/-- Function `checkdate` from the source: the date string passes iff its length is
exactly 10 and it contains exactly two hyphen characters. -/
def checkdate (date_str : String) : Bool :=
  date_str.length == 10 && date_str.toList.count '-' == 2

/-- Split a reversed digit list into groups of three, least significant
digits first (helper for the thousands-separator format `:,`). -/
def chunk3 : List Char → List (List Char)
  | [] => []
  | [a] => [[a]]
  | [a, b] => [[a, b]]
  | a :: b :: c :: rest => [a, b, c] :: chunk3 rest

/-- Python `format(n, ',')` on a natural number: decimal digits with a
comma every three digits counted from the right. -/
def commaGroupNat (n : Nat) : String :=
  String.mk ((List.intersperse [','] (chunk3 (toString n).toList.reverse)).flatten.reverse)

/-- Python `f-string` `:,` formatting of a (possibly negative) integer. -/
def commaGroupInt (n : Int) : String :=
  if n < 0 then "-" ++ commaGroupNat n.natAbs else commaGroupNat n.natAbs

/-- Query `SELECT mid FROM member WHERE mid = ?` + `fetchone()`. -/
def findMemberRow (db : DB) (mid : String) : Option Member :=
  db.members.find? (fun m => m.mid == mid)

/-- Query `SELECT bprice, bstock FROM book WHERE bid = ?` + `fetchone()`. -/
def findBookRow (db : DB) (bid : String) : Option Book :=
  db.books.find? (fun b => b.bid == bid)

/-- Function `add_sale` with an explicit engine-error oracle: `engineErr = some e`
means the database engine raises `sqlite3.Error e` during the write phase
(the sale `INSERT` or the stock `UPDATE`), in which case the handler rolls
the transaction back — the state reverts to the one at entry — and the
function returns `False` with the generic message around the error text.
With `engineErr = none` the writes succeed and are committed. -/
def addSaleWith (engineErr : Option String) (db : DB) (sdate mid bid : String)
    (sqty sdiscount : Int) : DB × Bool × String :=
  match findMemberRow db mid with
  | none => (db, false, "錯誤：會員編號 " ++ mid ++ " 無效。")
  | some _ =>
    match findBookRow db bid with
    | none => (db, false, "錯誤：書籍編號 " ++ bid ++ " 無效。")
    | some book =>
      if book.bstock < sqty then
        (db, false, "錯誤：書籍庫存不足 (現有庫存: " ++ toString book.bstock ++ ")。")
      else
        let stotal : Int := book.bprice * sqty - sdiscount
        match engineErr with
        | some e => (db, false, "交易失敗：" ++ e)
        | none =>
          let newSale : Sale :=
            ⟨db.nextSid, sdate, mid, bid, sqty, sdiscount, stotal⟩
          let db' : DB :=
            { db with
              sales := db.sales ++ [newSale]
              books := db.books.map (fun b =>
                if b.bid == bid then { b with bstock := b.bstock - sqty } else b)
              nextSid := db.nextSid + 1 }
          (db', true, "銷售記錄已新增！(銷售總額: " ++ commaGroupInt stotal ++ ")")

/-- Function `add_sale` from the source, in the normal case where the engine
reports no error. -/
def add_sale (db : DB) (sdate mid bid : String) (sqty sdiscount : Int) :
    DB × Bool × String :=
  addSaleWith none db sdate mid bid sqty sdiscount

/-- Query `SELECT sid FROM sale WHERE sid = ?` + `fetchone()` (also the shape of
the recomputation lookup in `update_sale`). -/
def findSaleRow (db : DB) (sale_id : Nat) : Option Sale :=
  db.sales.find? (fun s => s.sid == sale_id)

/-- The state-changing core of `update_sale` (the part after the
interactive prompts have produced an existing `sale_id` and a
`newdiscount`): look up `b.bprice, s.sqty` by joining the sale with its
book, recompute `stotal = bprice * sqty - newdiscount`, and rewrite the
sale row's `sdiscount` and `stotal`; if the join finds nothing, only an
error message is printed and nothing changes. -/
def update_discount (db : DB) (sale_id : Nat) (newdiscount : Int) : DB :=
  match findSaleRow db sale_id with
  | none => db
  | some s =>
    match findBookRow db s.bid with
    | none => db
    | some b =>
      { db with
        sales := db.sales.map (fun t =>
          if t.sid == sale_id then
            { t with sdiscount := newdiscount,
                     stotal := b.bprice * s.sqty - newdiscount }
          else t) }

/-- The state-changing core of `delete_sale`:
`DELETE FROM sale WHERE sid = ?`.  Book and member tables are untouched —
deleting a sale does not restore stock. -/
def delete_sale (db : DB) (sale_id : Nat) : DB :=
  { db with sales := db.sales.filter (fun s => s.sid != sale_id) }

/-- One row of the report produced by `print_sale_report`'s query. -/
structure ReportRow where
  sid : Nat
  sdate : String
  mname : String
  btitle : String
  bprice : Int
  sqty : Int
  sdiscount : Int
  stotal : Int
deriving DecidableEq, Repr

/-- The rows fetched by `print_sale_report`:
`SELECT ... FROM sale s JOIN member m ON s.mid = m.mid
JOIN book b ON s.bid = b.bid ORDER BY s.sid`.
Inner joins: a sale whose member or book has no matching row contributes
no report row. -/
def saleReportRows (db : DB) : List ReportRow :=
  (List.insertionSort (fun a b => a.sid ≤ b.sid) db.sales).filterMap fun s =>
    match findMemberRow db s.mid, findBookRow db s.bid with
    | some m, some b =>
      some ⟨s.sid, s.sdate, m.mname, b.btitle, b.bprice, s.sqty, s.sdiscount, s.stotal⟩
    | _, _ => none

/-- Predicate for when `print_sale_report` prints the notice
`目前沒有銷售記錄。` and returns without listing anything, which happens
exactly when its query comes back empty. -/
def reportShowsNoRecords (db : DB) : Bool :=
  (saleReportRows db).isEmpty

/-- The three members seeded by `initialize_db`. -/
def seedMembers : List Member :=
  [⟨"M001", "Alice", "0912-345678", some "alice@example.com"⟩,
   ⟨"M002", "Bob", "0923-456789", some "bob@example.com"⟩,
   ⟨"M003", "Cathy", "0934-567890", some "cathy@example.com"⟩]

/-- The three books seeded by `initialize_db`. -/
def seedBooks : List Book :=
  [⟨"B001", "Python Programming", 600, 50⟩,
   ⟨"B002", "Data Science Basics", 800, 30⟩,
   ⟨"B003", "Machine Learning Guide", 1200, 20⟩]

/-- The four sample sales seeded by `initialize_db`, all dated `today`
(`date.today().strftime`); `sid` 1–4 are assigned by `AUTOINCREMENT`. -/
def seedSales (today : String) : List Sale :=
  [⟨1, today, "M001", "B001", 2, 100, 1100⟩,
   ⟨2, today, "M002", "B002", 1, 50, 750⟩,
   ⟨3, today, "M001", "B003", 3, 200, 3400⟩,
   ⟨4, today, "M003", "B001", 1, 0, 600⟩]

/-- Function `initialize_db` on a fresh database: the seeded state, parameterised
by the runtime date string `today`. -/
def initialize_db (today : String) : DB :=
  ⟨seedMembers, seedBooks, seedSales today, 5⟩

/-- One operator-driven Store operation of the menu loop. -/
inductive Op where
  | recordSale (sdate mid bid : String) (sqty sdiscount : Int)
  | printReport
  | updateDiscount (sale_id : Nat) (newdiscount : Int)
  | deleteSale (sale_id : Nat)

/-- Apply one Store operation to the database state (the report reads but
never writes). -/
def applyOp (db : DB) : Op → DB
  | .recordSale sdate mid bid sqty sdiscount =>
    (add_sale db sdate mid bid sqty sdiscount).1
  | .printReport => db
  | .updateDiscount sale_id newdiscount => update_discount db sale_id newdiscount
  | .deleteSale sale_id => delete_sale db sale_id

/-- Apply a whole session's sequence of Store operations. -/
def applyOps (db : DB) (ops : List Op) : DB :=
  ops.foldl applyOp db

/-- A recorded sale's quantity is positive (the menu loop rejects
`sqty <= 0` before calling `add_sale`); the other operations carry no
quantity. -/
def QtyPos : Op → Prop
  | .recordSale _ _ _ sqty _ => 0 < sqty
  | _ => True

/-- The possible outcomes of menu choice 1 (the add-sale flow in `main`),
in the order the checks occur. -/
inductive SaleFlowResult where
  | dateError
  | parseError
  | qtyNotPositive
  | discountNegative
  | storeResult (ok : Bool) (msg : String)
deriving DecidableEq, Repr

/-- Menu choice 1 in `main`: check the date shape first (reject and
continue on failure), read member and book ids, parse the quantity
(`none` models a string `int()` rejects with `ValueError`), reject
non-positive quantities, parse the discount, reject negative discounts,
and only then call `add_sale`. -/
def addSaleFlow (db : DB) (sdate mid bid : String)
    (sqty sdiscount : Option Int) : DB × SaleFlowResult :=
  if checkdate sdate = false then (db, .dateError)
  else
    match sqty with
    | none => (db, .parseError)
    | some q =>
      if q ≤ 0 then (db, .qtyNotPositive)
      else
        match sdiscount with
        | none => (db, .parseError)
        | some d =>
          if d < 0 then (db, .discountNegative)
          else
            let r := add_sale db sdate mid bid q d
            (r.1, .storeResult r.2.1 r.2.2)

/-! ### Helper lemmas -/

/-- Looking a book id up after the stock `UPDATE ... WHERE bid = ?`
returns the previously found row with its stock rewritten. -/
theorem find_bid_after_stock_update (l : List Book) (bid : String) (sqty : Int) :
    (l.map (fun x =>
      if x.bid == bid then { x with bstock := x.bstock - sqty } else x)).find?
        (fun x => x.bid == bid) =
      (l.find? (fun x => x.bid == bid)).map
        (fun x => { x with bstock := x.bstock - sqty }) := by
  rw [List.find?_map]
  have hpred : ((fun x : Book => x.bid == bid) ∘ fun x =>
      if x.bid == bid then { x with bstock := x.bstock - sqty } else x) =
      fun x : Book => x.bid == bid := by
    funext x
    by_cases h : x.bid = bid <;> simp [h]
  rw [hpred]
  cases hf : l.find? (fun x => x.bid == bid) with
  | none => rfl
  | some x =>
    have hx : x.bid = bid := by simpa using List.find?_some hf
    simp [hx]

/-- Shape of `add_sale` when all validation passes and the engine reports
no error: commit the inserted sale row and the decremented stock. -/
theorem add_sale_success_eq (db : DB) (sdate mid bid : String) (sqty sdiscount : Int)
    (m : Member) (b : Book)
    (hm : findMemberRow db mid = some m) (hb : findBookRow db bid = some b)
    (hq : sqty ≤ b.bstock) :
    add_sale db sdate mid bid sqty sdiscount =
      ({ members := db.members
         books := db.books.map (fun x =>
           if x.bid == bid then { x with bstock := x.bstock - sqty } else x)
         sales := db.sales ++ [⟨db.nextSid, sdate, mid, bid, sqty, sdiscount,
           b.bprice * sqty - sdiscount⟩]
         nextSid := db.nextSid + 1 },
       true,
       "銷售記錄已新增！(銷售總額: " ++ commaGroupInt (b.bprice * sqty - sdiscount) ++ ")") := by
  have hlt : ¬ b.bstock < sqty := not_lt.mpr hq
  unfold add_sale addSaleWith
  rw [hm, hb]
  simp [hlt]

/-! ### Claim theorems -/

/-- Claim C8: The date-shape check `checkdate` accepts `"2024-01-05"` and
rejects `"2024/01/05"` and `"24-1-5"`; in general it returns `true`
exactly for strings of length 10 containing exactly two hyphens. -/
theorem checkdate_spec :
    checkdate "2024-01-05" = true ∧
    checkdate "2024/01/05" = false ∧
    checkdate "24-1-5" = false ∧
    ∀ s : String, checkdate s = true ↔ (s.length = 10 ∧ s.toList.count '-' = 2) := by
  refine ⟨by decide, by decide, by decide, fun s => ?_⟩
  simp [checkdate]

/-- Claim C7: If the date string fails the shape check (not length 10 with
exactly two hyphens), the add-sale flow of the menu stops at its first
validation step with the distinct date-format outcome and an unchanged
database, whatever the member id, book id, quantity and discount inputs
are — so the member, book and stock checks are never reached. -/
theorem add_sale_flow_bad_date (db : DB) (sdate mid bid : String)
    (sqty sdiscount : Option Int) (h : checkdate sdate = false) :
    addSaleFlow db sdate mid bid sqty sdiscount = (db, .dateError) := by
  simp [addSaleFlow, h]

/-- Witness for C7: the inputs `"2024/01/05"` (zero hyphens) and
`"24-1-5"` (length 6) both produce the date-format outcome with the
seeded database unchanged, even alongside otherwise valid inputs. -/
theorem add_sale_flow_bad_date_witness :
    addSaleFlow (initialize_db "2024-01-01") "2024/01/05" "M001" "B001"
        (some 2) (some 100) = (initialize_db "2024-01-01", .dateError) ∧
    addSaleFlow (initialize_db "2024-01-01") "24-1-5" "M001" "B001"
        (some 2) (some 100) = (initialize_db "2024-01-01", .dateError) :=
  ⟨add_sale_flow_bad_date _ _ _ _ _ _ (by decide),
   add_sale_flow_bad_date _ _ _ _ _ _ (by decide)⟩

/-- Claim C2: Each of the three validation failures of `add_sale` — unknown
member id, unknown book id (checked after the member, with its own
message), and a quantity above the current stock (whose message reports
that stock) — returns `False` with its distinct message and leaves the
database exactly as it was: no sale row is inserted and no stock
changes. -/
theorem add_sale_validation_failure_no_mutation
    (db : DB) (sdate mid bid : String) (sqty sdiscount : Int) :
    (findMemberRow db mid = none →
      add_sale db sdate mid bid sqty sdiscount =
        (db, false, "錯誤：會員編號 " ++ mid ++ " 無效。")) ∧
    (∀ m, findMemberRow db mid = some m → findBookRow db bid = none →
      add_sale db sdate mid bid sqty sdiscount =
        (db, false, "錯誤：書籍編號 " ++ bid ++ " 無效。")) ∧
    (∀ m b, findMemberRow db mid = some m → findBookRow db bid = some b →
      b.bstock < sqty →
      add_sale db sdate mid bid sqty sdiscount =
        (db, false, "錯誤：書籍庫存不足 (現有庫存: " ++ toString b.bstock ++ ")。")) := by
  refine ⟨fun hm => ?_, fun m hm hb => ?_, fun m b hm hb hlt => ?_⟩
  · unfold add_sale addSaleWith
    rw [hm]
  · unfold add_sale addSaleWith
    rw [hm, hb]
  · unfold add_sale addSaleWith
    rw [hm, hb]
    simp [hlt]

/-- Witness for C2: on the seeded database, an unknown member `M999`, an
unknown book `B999`, and an oversized quantity 1000 against `B001`
(stock 50) each fail with their distinct message and leave the state
untouched. -/
theorem add_sale_validation_failure_no_mutation_witness :
    add_sale (initialize_db "2024-01-01") "2024-01-01" "M999" "B001" 2 100 =
      (initialize_db "2024-01-01", false, "錯誤：會員編號 M999 無效。") ∧
    add_sale (initialize_db "2024-01-01") "2024-01-01" "M001" "B999" 2 100 =
      (initialize_db "2024-01-01", false, "錯誤：書籍編號 B999 無效。") ∧
    add_sale (initialize_db "2024-01-01") "2024-01-01" "M001" "B001" 1000 100 =
      (initialize_db "2024-01-01", false, "錯誤：書籍庫存不足 (現有庫存: 50)。") :=
  ⟨(add_sale_validation_failure_no_mutation
      (initialize_db "2024-01-01") "2024-01-01" "M999" "B001" 2 100).1 (by decide),
   (add_sale_validation_failure_no_mutation
      (initialize_db "2024-01-01") "2024-01-01" "M001" "B999" 2 100).2.1
     ⟨"M001", "Alice", "0912-345678", some "alice@example.com"⟩ (by decide) (by decide),
   (add_sale_validation_failure_no_mutation
      (initialize_db "2024-01-01") "2024-01-01" "M001" "B001" 1000 100).2.2
     ⟨"M001", "Alice", "0912-345678", some "alice@example.com"⟩
     ⟨"B001", "Python Programming", 600, 50⟩ (by decide) (by decide) (by decide)⟩

/-- Claim C4: If the engine raises an error during the write phase of
`add_sale` (after member, book and stock validation all passed), the
transaction is rolled back — the returned state is exactly the entry
state — and the call returns `False` with the generic failure message
wrapping the engine's error text; the error does not escape as an
exception. -/
theorem add_sale_engine_error_rollback
    (db : DB) (sdate mid bid : String) (sqty sdiscount : Int) (e : String)
    (m : Member) (b : Book)
    (hm : findMemberRow db mid = some m) (hb : findBookRow db bid = some b)
    (hq : sqty ≤ b.bstock) :
    addSaleWith (some e) db sdate mid bid sqty sdiscount =
      (db, false, "交易失敗：" ++ e) := by
  have hlt : ¬ b.bstock < sqty := not_lt.mpr hq
  unfold addSaleWith
  rw [hm, hb]
  simp [hlt]

/-- Witness for C4: a disk I/O error during the otherwise valid seeded
sale rolls the state back and surfaces the wrapped engine message. -/
theorem add_sale_engine_error_rollback_witness :
    addSaleWith (some "disk I/O error") (initialize_db "2024-01-01")
        "2024-01-01" "M001" "B001" 2 100 =
      (initialize_db "2024-01-01", false, "交易失敗：disk I/O error") :=
  add_sale_engine_error_rollback (initialize_db "2024-01-01")
    "2024-01-01" "M001" "B001" 2 100 "disk I/O error"
    ⟨"M001", "Alice", "0912-345678", some "alice@example.com"⟩
    ⟨"B001", "Python Programming", 600, 50⟩ (by decide) (by decide) (by decide)

/-- Witness for C8: the general characterisation applied at the string
`"1111-11-11"`. -/
theorem checkdate_spec_witness : checkdate "1111-11-11" = true :=
  (checkdate_spec.2.2.2 "1111-11-11").mpr (by decide)

/-- Claim C1: A record-sale call with an existing member, an existing book
and a quantity within stock succeeds: it returns `True`, appends exactly
one sale row whose total is `unit_price * quantity - discount` (no floor
at zero — the arithmetic is over `Int`), rewrites the sold book's stock
to `stock - quantity`, and changes nothing else: members are untouched,
books with a different id survive unchanged, the book count is
preserved, and every book row afterwards is either an original row or
the one updated row. -/
theorem add_sale_valid_spec
    (db : DB) (sdate mid bid : String) (sqty sdiscount : Int)
    (m : Member) (b : Book)
    (hnodup : (db.books.map Book.bid).Nodup)
    (hm : findMemberRow db mid = some m) (hb : findBookRow db bid = some b)
    (hq : sqty ≤ b.bstock) :
    (add_sale db sdate mid bid sqty sdiscount).2.1 = true ∧
    (add_sale db sdate mid bid sqty sdiscount).1.members = db.members ∧
    (add_sale db sdate mid bid sqty sdiscount).1.sales =
      db.sales ++ [⟨db.nextSid, sdate, mid, bid, sqty, sdiscount,
        b.bprice * sqty - sdiscount⟩] ∧
    findBookRow (add_sale db sdate mid bid sqty sdiscount).1 bid =
      some { b with bstock := b.bstock - sqty } ∧
    (∀ b' ∈ db.books, b'.bid ≠ bid →
      b' ∈ (add_sale db sdate mid bid sqty sdiscount).1.books) ∧
    (∀ b' ∈ (add_sale db sdate mid bid sqty sdiscount).1.books,
      b' ∈ db.books ∨ b' = { b with bstock := b.bstock - sqty }) ∧
    (add_sale db sdate mid bid sqty sdiscount).1.books.length = db.books.length := by
  have hb' : db.books.find? (fun x => x.bid == bid) = some b := hb
  have hbmem : b ∈ db.books := List.mem_of_find?_eq_some hb'
  have hbbid : b.bid = bid := by simpa using List.find?_some hb'
  rw [add_sale_success_eq db sdate mid bid sqty sdiscount m b hm hb hq]
  refine ⟨rfl, rfl, rfl, ?_, ?_, ?_, by simp⟩
  · unfold findBookRow
    dsimp only
    rw [find_bid_after_stock_update, hb']
    rfl
  · intro b' hbm hne
    have hf : (if (b'.bid == bid) = true
        then { b' with bstock := b'.bstock - sqty } else b') = b' := by
      simp [hne]
    exact hf ▸ List.mem_map_of_mem _ hbm
  · intro b' hb'mem
    rcases List.mem_map.1 hb'mem with ⟨x, hx, rfl⟩
    by_cases hxb : x.bid = bid
    · have hxeq : x = b :=
        List.inj_on_of_nodup_map hnodup hx hbmem (hxb.trans hbbid.symm)
      subst hxeq
      right
      simp [hxb]
    · left
      simpa [hxb] using hx

/-- Witness for C1: the seeded sale `M001` buys two copies of `B001`
(price 600, stock 50) with discount 100; the call succeeds, the inserted
row carries total `1100`, and `B001`'s stock drops to `48`. -/
theorem add_sale_valid_spec_witness :
    (add_sale (initialize_db "2024-01-01") "2024-01-01" "M001" "B001" 2 100).2.1 = true ∧
    (add_sale (initialize_db "2024-01-01") "2024-01-01" "M001" "B001" 2 100).1.sales =
      (initialize_db "2024-01-01").sales ++
        [⟨5, "2024-01-01", "M001", "B001", 2, 100, 1100⟩] ∧
    findBookRow (add_sale (initialize_db "2024-01-01") "2024-01-01" "M001" "B001" 2 100).1
        "B001" = some ⟨"B001", "Python Programming", 600, 48⟩ := by
  have h := add_sale_valid_spec (initialize_db "2024-01-01") "2024-01-01" "M001" "B001"
    2 100 ⟨"M001", "Alice", "0912-345678", some "alice@example.com"⟩
    ⟨"B001", "Python Programming", 600, 50⟩
    (by decide) (by decide) (by decide) (by decide)
  exact ⟨h.1, h.2.2.1, h.2.2.2.1⟩

/-- Claim C9: `add_sale` itself never checks that the quantity is positive
nor that the discount is non-negative: whenever the member and book exist
and `sqty ≤ stock` — including `sqty = 0` and negative `sqty` — the call
succeeds, inserts the sale row, and sets the stock to `stock - sqty`
(which increases the stock when `sqty` is negative). -/
theorem add_sale_no_positivity_check
    (db : DB) (sdate mid bid : String) (sqty sdiscount : Int)
    (m : Member) (b : Book)
    (hm : findMemberRow db mid = some m) (hb : findBookRow db bid = some b)
    (hq : sqty ≤ b.bstock) :
    (add_sale db sdate mid bid sqty sdiscount).2.1 = true ∧
    (add_sale db sdate mid bid sqty sdiscount).1.sales =
      db.sales ++ [⟨db.nextSid, sdate, mid, bid, sqty, sdiscount,
        b.bprice * sqty - sdiscount⟩] ∧
    findBookRow (add_sale db sdate mid bid sqty sdiscount).1 bid =
      some { b with bstock := b.bstock - sqty } := by
  have hb' : db.books.find? (fun x => x.bid == bid) = some b := hb
  rw [add_sale_success_eq db sdate mid bid sqty sdiscount m b hm hb hq]
  refine ⟨rfl, rfl, ?_⟩
  unfold findBookRow
  dsimp only
  rw [find_bid_after_stock_update, hb']
  rfl

/-- Witness for C9: a sale of quantity `-3` of `B001` (stock 50) with
discount 100 succeeds — `-3 ≤ 50` — inserting a row with the negative
total `600 * (-3) - 100 = -1900` and *raising* the stock to `53`. -/
theorem add_sale_no_positivity_check_witness :
    (add_sale (initialize_db "2024-01-01") "2024-01-01" "M001" "B001" (-3) 100).2.1 = true ∧
    (add_sale (initialize_db "2024-01-01") "2024-01-01" "M001" "B001" (-3) 100).1.sales =
      (initialize_db "2024-01-01").sales ++
        [⟨5, "2024-01-01", "M001", "B001", -3, 100, -1900⟩] ∧
    findBookRow
        (add_sale (initialize_db "2024-01-01") "2024-01-01" "M001" "B001" (-3) 100).1
        "B001" = some ⟨"B001", "Python Programming", 600, 53⟩ := by
  have h := add_sale_no_positivity_check (initialize_db "2024-01-01") "2024-01-01"
    "M001" "B001" (-3) 100 ⟨"M001", "Alice", "0912-345678", some "alice@example.com"⟩
    ⟨"B001", "Python Programming", 600, 50⟩ (by decide) (by decide) (by decide)
  exact ⟨h.1, h.2.1, h.2.2⟩

/-- Claim C3: When the targeted sale exists and its stored total is
consistent (`total_old = price * quantity - discount_old`),
`update_discount` recomputes the total from the *original* sale's
quantity and its book's price, so the rewritten row satisfies
`total_new = total_old + discount_old - discount_new` and keeps every
other field; members, books, the number of sales, and every sale with a
different id are unchanged, and every resulting row is either an
original row or that one rewritten row. -/
theorem update_discount_spec
    (db : DB) (sale_id : Nat) (nd : Int) (s : Sale) (b : Book)
    (hsnodup : (db.sales.map Sale.sid).Nodup)
    (hs : findSaleRow db sale_id = some s)
    (hb : findBookRow db s.bid = some b)
    (hcons : s.stotal = b.bprice * s.sqty - s.sdiscount) :
    (update_discount db sale_id nd).members = db.members ∧
    (update_discount db sale_id nd).books = db.books ∧
    (update_discount db sale_id nd).sales.length = db.sales.length ∧
    { s with sdiscount := nd, stotal := s.stotal + s.sdiscount - nd } ∈
      (update_discount db sale_id nd).sales ∧
    (∀ t ∈ db.sales, t.sid ≠ sale_id → t ∈ (update_discount db sale_id nd).sales) ∧
    (∀ t ∈ (update_discount db sale_id nd).sales,
      t ∈ db.sales ∨
        t = { s with sdiscount := nd, stotal := s.stotal + s.sdiscount - nd }) := by
  have hs' : db.sales.find? (fun t => t.sid == sale_id) = some s := hs
  have hsmem : s ∈ db.sales := List.mem_of_find?_eq_some hs'
  have hssid : s.sid = sale_id := by simpa using List.find?_some hs'
  have htot : b.bprice * s.sqty - nd = s.stotal + s.sdiscount - nd := by
    rw [hcons]; ring
  unfold update_discount
  simp only [hs, hb]
  refine ⟨by trivial, by trivial, by simp, ?_, ?_, ?_⟩
  · have hf : (if (s.sid == sale_id) = true
        then { s with sdiscount := nd, stotal := b.bprice * s.sqty - nd } else s) =
        { s with sdiscount := nd, stotal := s.stotal + s.sdiscount - nd } := by
      simp [hssid, htot]
    exact hf ▸ List.mem_map_of_mem _ hsmem
  · intro t htmem htne
    have hf : (if (t.sid == sale_id) = true
        then { t with sdiscount := nd, stotal := b.bprice * s.sqty - nd } else t) = t := by
      simp [htne]
    exact hf ▸ List.mem_map_of_mem _ htmem
  · intro t htmem
    rcases List.mem_map.1 htmem with ⟨x, hx, rfl⟩
    by_cases hxs : x.sid = sale_id
    · have hxeq : x = s :=
        List.inj_on_of_nodup_map hsnodup hx hsmem (hxs.trans hssid.symm)
      subst hxeq
      right
      simp [hxs, htot]
    · left
      simpa [hxs] using hx

/-- Witness for C3: the seeded sale 1 (`B001`, price 600, quantity 2,
discount 100, total 1100 — consistent) updated to discount 200 yields
total `1000 = 1100 + 100 - 200`, with the book table untouched. -/
theorem update_discount_spec_witness :
    (⟨1, "2024-01-01", "M001", "B001", 2, 200, 1000⟩ : Sale) ∈
      (update_discount (initialize_db "2024-01-01") 1 200).sales ∧
    (update_discount (initialize_db "2024-01-01") 1 200).books =
      (initialize_db "2024-01-01").books := by
  have h := update_discount_spec (initialize_db "2024-01-01") 1 200
    ⟨1, "2024-01-01", "M001", "B001", 2, 100, 1100⟩
    ⟨"B001", "Python Programming", 600, 50⟩
    (by decide) (by decide) (by decide) (by decide)
  exact ⟨h.2.2.2.1, h.2.1⟩

/-- Claim C5: Deleting an existing sale id removes exactly that one sale
row: the sale count drops by one, every other sale survives, every
remaining sale has a different id, and the book table (in particular
every stock) and the member table are exactly as before — stock is never
restored. -/
theorem delete_sale_spec (db : DB) (sale_id : Nat) (s : Sale)
    (hnodup : (db.sales.map Sale.sid).Nodup)
    (hs : s ∈ db.sales) (hsid : s.sid = sale_id) :
    (delete_sale db sale_id).books = db.books ∧
    (delete_sale db sale_id).members = db.members ∧
    (delete_sale db sale_id).sales.length + 1 = db.sales.length ∧
    (∀ t ∈ db.sales, t ≠ s → t ∈ (delete_sale db sale_id).sales) ∧
    (∀ t ∈ (delete_sale db sale_id).sales, t ∈ db.sales ∧ t.sid ≠ sale_id) := by
  have hlnd : db.sales.Nodup := hnodup.of_map
  have hne_of_mem : ∀ t ∈ db.sales, t ≠ s → t.sid ≠ sale_id := by
    intro t htl hts h
    exact hts (List.inj_on_of_nodup_map hnodup htl hs (h.trans hsid.symm))
  refine ⟨rfl, rfl, ?_, ?_, ?_⟩
  · have hperm := (List.perm_cons_erase hs).filter (fun t => t.sid != sale_id)
    have hps : (s.sid != sale_id) = false := by simp [hsid]
    have hfilter : (db.sales.erase s).filter (fun t => t.sid != sale_id) =
        db.sales.erase s := by
      refine List.filter_eq_self.mpr fun t ht => ?_
      have htl : t ∈ db.sales := List.mem_of_mem_erase ht
      have hts : t ≠ s := fun h => hlnd.not_mem_erase (h ▸ ht)
      simpa using hne_of_mem t htl hts
    have hlen := hperm.length_eq
    rw [List.filter_cons, hps] at hlen
    rw [if_neg Bool.false_ne_true] at hlen
    rw [hfilter] at hlen
    have hpos : 0 < db.sales.length := List.length_pos_of_mem hs
    have herase := List.length_erase_of_mem hs
    show (db.sales.filter (fun t => t.sid != sale_id)).length + 1 = db.sales.length
    omega
  · intro t htl hts
    have : (t.sid != sale_id) = true := by simpa using hne_of_mem t htl hts
    exact List.mem_filter.mpr ⟨htl, this⟩
  · intro t htm
    rcases List.mem_filter.mp htm with ⟨htl, hp⟩
    exact ⟨htl, by simpa using hp⟩

/-- Witness for C5: deleting seeded sale 1 leaves books and members
untouched and shrinks the sale table from 4 rows to 3. -/
theorem delete_sale_spec_witness :
    (delete_sale (initialize_db "2024-01-01") 1).books =
      (initialize_db "2024-01-01").books ∧
    (delete_sale (initialize_db "2024-01-01") 1).sales.length + 1 =
      (initialize_db "2024-01-01").sales.length := by
  have h := delete_sale_spec (initialize_db "2024-01-01") 1
    ⟨1, "2024-01-01", "M001", "B001", 2, 100, 1100⟩
    (by decide) (by decide) (by decide)
  exact ⟨h.1, h.2.2.1⟩

/-- All stocks in the book table are non-negative. -/
def StocksNonneg (db : DB) : Prop := ∀ b ∈ db.books, 0 ≤ b.bstock

/-- Well-formedness of the book table: uniqueness of `bid` (the primary
key the engine enforces) together with non-negative stocks. -/
def BooksWF (db : DB) : Prop :=
  (db.books.map Book.bid).Nodup ∧ StocksNonneg db

/-- Operation `add_sale` preserves book-table well-formedness: a failed call leaves
the table alone, and a successful one only rewrites the sold book's stock
to `stock - sqty`, which the `bstock < sqty` guard keeps non-negative. -/
theorem add_sale_preserves_wf (db : DB) (sdate mid bid : String)
    (sqty sdiscount : Int) (h : BooksWF db) :
    BooksWF (add_sale db sdate mid bid sqty sdiscount).1 := by
  unfold add_sale addSaleWith
  cases hm : findMemberRow db mid with
  | none => exact h
  | some m =>
    cases hb : findBookRow db bid with
    | none => exact h
    | some b =>
      by_cases hlt : b.bstock < sqty
      · simp only [if_pos hlt]
        exact h
      · simp only [if_neg hlt]
        have hb' : db.books.find? (fun x => x.bid == bid) = some b := hb
        have hbmem : b ∈ db.books := List.mem_of_find?_eq_some hb'
        have hbbid : b.bid = bid := by simpa using List.find?_some hb'
        unfold BooksWF StocksNonneg
        dsimp only
        constructor
        · have hcomp : Book.bid ∘ (fun x : Book =>
              if x.bid == bid then { x with bstock := x.bstock - sqty } else x) =
              Book.bid := by
            funext x
            by_cases hx : x.bid = bid <;> simp [hx]
          rw [List.map_map, hcomp]
          exact h.1
        · intro b' hb'mem
          rcases List.mem_map.1 hb'mem with ⟨x, hx, rfl⟩
          by_cases hxb : x.bid = bid
          · have hxeq : x = b :=
              List.inj_on_of_nodup_map h.1 hx hbmem (hxb.trans hbbid.symm)
            have hle : sqty ≤ x.bstock := by
              rw [hxeq]; exact not_lt.mp hlt
            simp [hxb]
            omega
          · have h0 := h.2 x hx
            simpa [hxb] using h0

/-- The discount update of `update_sale` never touches the book table. -/
theorem update_discount_books_eq (db : DB) (sale_id : Nat) (nd : Int) :
    (update_discount db sale_id nd).books = db.books := by
  cases hfs : findSaleRow db sale_id with
  | none => simp only [update_discount, hfs]
  | some s =>
    cases hfb : findBookRow db s.bid with
    | none => simp only [update_discount, hfs, hfb]
    | some b => simp only [update_discount, hfs, hfb]

/-- Every single Store operation preserves book-table well-formedness. -/
theorem applyOp_preserves_wf (db : DB) (op : Op) (h : BooksWF db) :
    BooksWF (applyOp db op) := by
  cases op with
  | recordSale sdate mid bid sqty sdiscount =>
    exact add_sale_preserves_wf db sdate mid bid sqty sdiscount h
  | printReport => exact h
  | updateDiscount sale_id nd =>
    unfold BooksWF StocksNonneg at h ⊢
    dsimp only [applyOp]
    rw [update_discount_books_eq]
    exact h
  | deleteSale sale_id => exact h

/-- Every sequence of Store operations preserves book-table
well-formedness. -/
theorem applyOps_preserves_wf (ops : List Op) (db : DB) (h : BooksWF db) :
    BooksWF (applyOps db ops) := by
  induction ops generalizing db with
  | nil => exact h
  | cons op ops ih => exact ih (applyOp db op) (applyOp_preserves_wf db op h)

/-- Claim C6: Starting from the seeded state (whatever today's date string
is) and for every sequence of the four Store operations whose recorded
sales all have positive quantities, every book's stock stays
non-negative: stock is only ever decreased by a successful `add_sale`,
which requires the quantity not to exceed the current stock. -/
theorem stock_stays_nonneg (today : String) (ops : List Op)
    (hq : ∀ op ∈ ops, QtyPos op) :
    ∀ b ∈ (applyOps (initialize_db today) ops).books, 0 ≤ b.bstock := by
  have h0 : BooksWF (initialize_db today) :=
    ⟨show (List.map Book.bid seedBooks).Nodup by decide,
     show ∀ b ∈ seedBooks, 0 ≤ b.bstock by decide⟩
  exact (applyOps_preserves_wf ops (initialize_db today) h0).2

/-- Witness for C6: selling the entire stock of `B001` (quantity 50, the
exact stock) leaves `B001` at stock `0`, which is still non-negative. -/
theorem stock_stays_nonneg_witness :
    0 ≤ (Book.mk "B001" "Python Programming" 600 0).bstock :=
  stock_stays_nonneg "2024-01-01"
    [.recordSale "2024-01-01" "M001" "B001" 50 0]
    (fun op hop => by
      rw [List.mem_singleton] at hop
      subst hop
      exact (show (0 : Int) < 50 by decide))
    ⟨"B001", "Python Programming", 600, 0⟩
    (by decide)

/-- Claim C10: The sales report uses inner joins: every printed row comes
from a sale whose member and book ids both resolve, so a sale with a
dangling member or book id is silently dropped; the "no records" notice
is shown exactly when every sale in the table is such an orphan — in
particular a non-empty table of orphans prints it as if no sales
existed. -/
theorem report_omits_orphans (db : DB) :
    (∀ row ∈ saleReportRows db, ∃ s, s ∈ db.sales ∧ ∃ m, ∃ b,
      findMemberRow db s.mid = some m ∧ findBookRow db s.bid = some b ∧
      row = ⟨s.sid, s.sdate, m.mname, b.btitle, b.bprice, s.sqty,
        s.sdiscount, s.stotal⟩) ∧
    (reportShowsNoRecords db = true ↔
      ∀ s ∈ db.sales,
        findMemberRow db s.mid = none ∨ findBookRow db s.bid = none) := by
  constructor
  · intro row hrow
    rcases List.mem_filterMap.1 hrow with ⟨s, hsmem, hfs⟩
    have hsmem' : s ∈ db.sales :=
      (List.perm_insertionSort _ db.sales).mem_iff.1 hsmem
    refine ⟨s, hsmem', ?_⟩
    cases hm : findMemberRow db s.mid with
    | none => rw [hm] at hfs; simp at hfs
    | some m =>
      cases hb : findBookRow db s.bid with
      | none => rw [hm, hb] at hfs; simp at hfs
      | some b =>
        rw [hm, hb] at hfs
        exact ⟨m, b, rfl, rfl, (Option.some.inj hfs).symm⟩
  · rw [reportShowsNoRecords, List.isEmpty_iff, saleReportRows,
      List.filterMap_eq_nil_iff]
    constructor
    · intro h s hsmem
      have hsort : s ∈ List.insertionSort (fun a b => a.sid ≤ b.sid) db.sales :=
        (List.perm_insertionSort _ db.sales).mem_iff.2 hsmem
      have hnone := h s hsort
      cases hm : findMemberRow db s.mid with
      | none => exact Or.inl rfl
      | some m =>
        cases hb : findBookRow db s.bid with
        | none => exact Or.inr rfl
        | some b => rw [hm, hb] at hnone; simp at hnone
    · intro h s hsmem
      have hsmem' : s ∈ db.sales :=
        (List.perm_insertionSort _ db.sales).mem_iff.1 hsmem
      rcases h s hsmem' with hm | hb
      · simp [hm]
      · cases hmm : findMemberRow db s.mid <;> simp [hmm, hb]

/-- Witness for C10: a database whose member and book tables are empty
but whose sale table holds the four seeded sales — all orphans — prints
the "no records" notice as if no sales existed. -/
theorem report_omits_orphans_witness :
    reportShowsNoRecords (DB.mk [] [] (seedSales "2024-01-01") 5) = true ∧
    (DB.mk [] [] (seedSales "2024-01-01") 5).sales.length = 4 :=
  ⟨(report_omits_orphans (DB.mk [] [] (seedSales "2024-01-01") 5)).2.mpr
     (by decide),
   by decide⟩

end Bookstore
